import Mathlib

/-!
Verification of the typed property mapping system of `sdk/python/lib/pulumi/_types.py`:
the `@input_type` / `@output_type` class decorators, the `get` / `set` value-store
access protocol, the synthesized structural equality and output initializer, and the
`Optional` / `Output` type unwrapping helpers.

Python values stored in a Value Store are opaque to this module (it never inspects
them), so the development is parametric over a value type `V`.  A Python `dict` is
modelled as an association list in insertion order without duplicate keys.  Python's
`None` result of `dict.get` on a missing key is modelled by `Option.none`; a stored
object is `some v`.  `TypeError` and `AssertionError` are the two exceptions the
module raises.
-/

namespace PulumiTypes

/-- The Value Store representation: a Python dict from wire name (a string) to a
value, modelled as an association list in insertion order. -/
abbrev PyDict (V : Type) := List (String × V)

/-- Python dict lookup `d.get(k)`: the value at the key if present, else Python
`None` (modelled as `Option.none`). -/
def dictGet {V : Type} : PyDict V → String → Option V
  | [], _ => none
  | (k, w) :: rest, n => if k = n then some w else dictGet rest n

/-- Python dict assignment `d[k] = v`: replaces the value in place if the key is
present (keeping its position), otherwise appends the new entry. -/
def dictSet {V : Type} : PyDict V → String → V → PyDict V
  | [], n, v => [(n, v)]
  | (k, w) :: rest, n, v =>
      if k = n then (n, v) :: rest else (k, w) :: dictSet rest n v

/-- Well-formedness of a `PyDict` as a model of a Python dict: no duplicate keys. -/
def NodupKeys {V : Type} (d : PyDict V) : Prop := (d.map Prod.fst).Nodup

/-- Python dict equality `d1 == d2`: the two dicts hold the same keys with equal
values, independent of insertion order. -/
def dictBEq {V : Type} [DecidableEq V] (d1 d2 : PyDict V) : Bool :=
  (d1.all fun p => decide (dictGet d2 p.1 = some p.2)) &&
  (d2.all fun p => decide (dictGet d1 p.1 = some p.2))

/-- The exceptions raised by `_types.py`: `TypeError` (empty name argument, or a
non-dict payload given to the synthesized output initializer) and
`AssertionError` (double decoration, or `get`/`set`/`input_type_to_dict`
used with the wrong class kind). -/
inductive PyError where
  | typeError
  | assertionError
deriving DecidableEq, Repr

/-- The class-level state that `_types.py` reads and writes on a Python class:
the two kind markers (`_pulumi_input_type` / `_pulumi_output_type` attributes),
whether the class is a subclass of `dict`, whether `__eq__` / `__init__` appear in
the class's own `__dict__`, the optional `_translate_property` hook (`none` when
the attribute is absent or not callable), and whether the synthesized `__eq__` /
`__init__` have been attached.  `id` models class identity (`type(a) is type(b)`);
distinct classes have distinct ids. -/
structure PyClass where
  id : Nat
  input_marker : Bool
  output_marker : Bool
  is_dict_subclass : Bool
  has_own_eq : Bool
  has_own_init : Bool
  translate_property : Option (String → String)
  synth_eq : Bool
  synth_init : Bool

/-- `is_input_type(cls)`: `hasattr(cls, "_pulumi_input_type")`. -/
def is_input_type (cls : PyClass) : Bool := cls.input_marker

/-- `is_output_type(cls)`: `hasattr(cls, "_pulumi_output_type")`. -/
def is_output_type (cls : PyClass) : Bool := cls.output_marker

/-- An instance of a (possibly decorated) class: its class, its `_values`
attribute (`none` when the attribute was never set), and — for classes that
subclass `dict` — the instance's own dict contents. -/
structure PyInstance (V : Type) where
  cls : PyClass
  values : Option (PyDict V)
  dict_contents : PyDict V

/-- `_add_eq(cls)`: attaches the synthesized `__eq__` when the class is not a
`dict` subclass and does not already define `__eq__` in its own `__dict__`
(`setattr` also makes `__eq__` appear in the class `__dict__`). -/
def _add_eq (cls : PyClass) : PyClass :=
  if !cls.is_dict_subclass && !cls.has_own_eq then
    { cls with synth_eq := true, has_own_eq := true }
  else cls

/-- The body of the `__eq__` attached by `_add_eq`:
`type(other) is type(self) and getattr(other, "_values", None) == getattr(self, "_values", None)`.
A `_values` dict compares to an absent (`None`) `_values` as unequal, two absent
ones as equal, and two dicts by Python dict equality. -/
def synth_eq_fn {V : Type} [DecidableEq V] (self other : PyInstance V) : Bool :=
  decide (other.cls.id = self.cls.id) &&
    (match other.values, self.values with
     | none, none => true
     | some d1, some d2 => dictBEq d1 d2
     | _, _ => false)

/-- `@input_type`: raises `AssertionError` when the class already carries either
kind marker; otherwise marks the class as an input type and attaches the
synthesized `__eq__` via `_add_eq`.  (The per-field Python properties it also
creates delegate to `get`/`set`, which are modelled directly below.) -/
def input_type (cls : PyClass) : Except PyError PyClass :=
  if cls.input_marker || cls.output_marker then .error .assertionError
  else .ok (_add_eq { cls with input_marker := true })

/-- `@output_type`: raises `AssertionError` when the class already carries either
kind marker; otherwise marks the class as an output type, attaches the
synthesized `__init__` when the class is not a `dict` subclass and has no own
`__init__` (the `setattr` puts `__init__` into the class `__dict__`), and
attaches the synthesized `__eq__` via `_add_eq`.  (The per-field read-only
Python properties it also creates delegate to `get`, modelled below.) -/
def output_type (cls : PyClass) : Except PyError PyClass :=
  if cls.input_marker || cls.output_marker then .error .assertionError
  else
    let cls1 := { cls with output_marker := true }
    let cls2 :=
      if !cls1.is_dict_subclass && !cls1.has_own_init then
        { cls1 with synth_init := true, has_own_init := true }
      else cls1
    .ok (_add_eq cls2)

/-- An arbitrary Python object handed to the synthesized output initializer:
either a dict (`isinstance(value, dict)` holds) or any non-dict object. -/
inductive PyObj (V : Type) where
  | mapping (d : PyDict V)
  | nonMapping (v : V)

/-- The `__init__` synthesized by `@output_type`: raises `TypeError` when the
argument is not a dict, otherwise stores the dict wholesale as the instance's
`_values` attribute. -/
def synth_output_init {V : Type} (cls : PyClass) : PyObj V → Except PyError (PyInstance V)
  | .mapping d => .ok { cls := cls, values := some d, dict_contents := [] }
  | .nonMapping _ => .error .typeError

/-- `get(self, name)`: raises `TypeError` on an empty name (the model types names
as strings, so the `isinstance(name, str)` check cannot fail).  For an input-kind
class, reads `getattr(self, "_values", None)`, returning `values.get(name)` when
the attribute exists and `None` otherwise.  For an output-kind class, applies the
`_translate_property` hook (identity when absent) and reads either the instance's
own dict contents (`dict` subclass) or `_values` in the same way.  Raises
`AssertionError` when the class carries neither marker. -/
def get {V : Type} (i : PyInstance V) (n : String) : Except PyError (Option V) :=
  if n = "" then .error .typeError
  else
    let values := i.values
    if is_input_type i.cls then
      .ok (match values with | some d => dictGet d n | none => none)
    else if is_output_type i.cls then
      let translate := i.cls.translate_property.getD (fun prop => prop)
      if i.cls.is_dict_subclass then
        .ok (dictGet i.dict_contents (translate n))
      else
        .ok (match values with | some d => dictGet d (translate n) | none => none)
    else .error .assertionError

/-- `set(self, name, value)`: raises `TypeError` on an empty name and
`AssertionError` when the class is not input-kind; otherwise lazily creates the
`_values` dict if absent, then writes `values[name] = value`.  State passing is
explicit: an error leaves the instance unchanged (no new instance is produced). -/
def set {V : Type} (i : PyInstance V) (n : String) (v : V) : Except PyError (PyInstance V) :=
  if n = "" then .error .typeError
  else if !is_input_type i.cls then .error .assertionError
  else
    let values := i.values.getD []
    .ok { i with values := some (dictSet values n v) }

/-- `input_type_to_dict(value)` and `set`, re-modelled with explicit dict identity
to capture Python's aliasing: a heap maps addresses to dict contents, and an
instance's `_values` attribute holds an address (or is absent).  `dict(d)` is a
fresh allocation; `values[name] = value` is an in-place write at the store's
address. -/
structure Heap (V : Type) where
  mem : Nat → PyDict V
  next : Nat

/-- Allocation of a fresh Python dict with the given contents; returns the new
heap and the new dict's address. -/
def halloc {V : Type} (h : Heap V) (d : PyDict V) : Heap V × Nat :=
  (⟨fun a => if a = h.next then d else h.mem a, h.next + 1⟩, h.next)

/-- In-place replacement of the dict stored at an address. -/
def hwrite {V : Type} (h : Heap V) (a : Nat) (d : PyDict V) : Heap V :=
  ⟨fun a2 => if a2 = a then d else h.mem a2, h.next⟩

/-- In-place Python dict assignment `h[a][k] = v` on the dict at address `a`. -/
def hdictAssign {V : Type} (h : Heap V) (a : Nat) (k : String) (v : V) : Heap V :=
  hwrite h a (dictSet (h.mem a) k v)

/-- An instance in the heap model: its class and the address of its `_values`
dict (`none` when the attribute was never set). -/
structure HInstance where
  cls : PyClass
  values : Option Nat

/-- `set(self, name, value)` in the heap model: same checks as `set`; when
`_values` is absent it allocates an empty dict (`values = dict()`) and stores its
address on the instance, then performs the in-place write `values[name] = value`
at that address. -/
def hset {V : Type} (h : Heap V) (i : HInstance) (n : String) (v : V) :
    Except PyError (Heap V × HInstance) :=
  if n = "" then .error .typeError
  else if !is_input_type i.cls then .error .assertionError
  else
    match i.values with
    | some a => .ok (hdictAssign h a n v, i)
    | none =>
        let (h1, a) := halloc h []
        .ok (hdictAssign h1 a n v, { i with values := some a })

/-- `input_type_to_dict(value)` in the heap model: asserts the class is
input-kind, then returns `dict(getattr(value, "_values", {}))` — a freshly
allocated copy of the store's contents (of the empty dict when the `_values`
attribute is absent). -/
def input_type_to_dict {V : Type} (h : Heap V) (i : HInstance) :
    Except PyError (Heap V × Nat) :=
  if is_input_type i.cls then
    let d := match i.values with | some a => h.mem a | none => []
    .ok (halloc h d)
  else .error .assertionError

/-! The type unwrapping helpers.  A Python type expression, as the module
inspects it through `get_origin` / `get_args`: `noneType` is `type(None)`,
`output arg` is `Output[arg]` (the single-argument deferred-value wrapper,
whose subscription always carries exactly one argument), `union args` is
`Union[args...]`, and `base s` is any other type (e.g. `str`). -/

/-- A Python type expression as seen by the unwrapping helpers. -/
inductive TypeExpr where
  | noneType
  | output (arg : TypeExpr)
  | union (args : List TypeExpr)
  | base (s : String)

/-- The origins `get_origin` can report that the module tests for. -/
inductive TypeOrigin where
  | outputOrigin
  | unionOrigin
deriving DecidableEq, Repr

/-- `get_origin(tp)`: the generic origin of a parameterized type, `None` for a
plain type. -/
def get_origin : TypeExpr → Option TypeOrigin
  | .output _ => some .outputOrigin
  | .union _ => some .unionOrigin
  | _ => none

/-- `get_args(tp)`: the type arguments of a parameterized type, empty for a
plain type. -/
def get_args : TypeExpr → List TypeExpr
  | .output t => [t]
  | .union args => args
  | _ => []

/-- `tp is type(None)`: identity with the `NoneType` singleton. -/
def is_none_type : TypeExpr → Bool
  | .noneType => true
  | _ => false

/-- `_is_union_type(tp)`: whether the type is a `Union[...]`. -/
def _is_union_type : TypeExpr → Bool
  | .union _ => true
  | _ => false

mutual

/-- `_is_optional_type(tp)`: `True` for `type(None)` itself, and for a union any
of whose arguments is (recursively) optional. -/
def _is_optional_type : TypeExpr → Bool
  | .noneType => true
  | .union args => _any_optional args
  | _ => false

/-- `any(_is_optional_type(tt) for tt in args)`. -/
def _any_optional : List TypeExpr → Bool
  | [] => false
  | t :: ts => _is_optional_type t || _any_optional ts

end

/-- `unwrap_optional_type(val)`: when the type is optional and has exactly two
arguments, asserts the second argument is `type(None)` (an `AssertionError`
when it is not) and returns the first; any other shape is returned unchanged. -/
def unwrap_optional_type (val : TypeExpr) : Except PyError TypeExpr :=
  if _is_optional_type val then
    match get_args val with
    | [a, b] => if is_none_type b then .ok a else .error .assertionError
    | _ => .ok val
  else .ok val

/-- `_unwrap_type(val)`: when the origin is `Output`, replaces the type with its
sole argument (the `len(args) == 1` assertion holds by construction of
`TypeExpr.output`); then applies `unwrap_optional_type` once. -/
def _unwrap_type (val : TypeExpr) : Except PyError TypeExpr :=
  match val with
  | .output t => unwrap_optional_type t
  | _ => unwrap_optional_type val

/-! Basic facts about the dict model. -/

theorem dictGet_dictSet_self {V : Type} (d : PyDict V) (n : String) (v : V) :
    dictGet (dictSet d n v) n = some v := by
  induction d with
  | nil => simp [dictSet, dictGet]
  | cons p rest ih =>
      obtain ⟨k, w⟩ := p
      by_cases hk : k = n
      · subst hk; simp [dictSet, dictGet]
      · simp [dictSet, dictGet, hk, ih]

theorem dictGet_mem {V : Type} {d : PyDict V} {k : String} {v : V}
    (h : dictGet d k = some v) : (k, v) ∈ d := by
  induction d with
  | nil => simp [dictGet] at h
  | cons p rest ih =>
      obtain ⟨k', w⟩ := p
      by_cases hk : k' = k
      · subst hk
        simp [dictGet] at h
        simp [h]
      · simp [dictGet, hk] at h
        exact List.mem_cons_of_mem _ (ih h)

theorem mem_dictGet {V : Type} {d : PyDict V} (hd : NodupKeys d) {k : String} {v : V}
    (h : (k, v) ∈ d) : dictGet d k = some v := by
  induction d with
  | nil => simp at h
  | cons p rest ih =>
      obtain ⟨k', w⟩ := p
      have hd' : k' ∉ rest.map Prod.fst ∧ NodupKeys rest := by
        simpa [NodupKeys, List.nodup_cons] using hd
      rcases List.mem_cons.mp h with h1 | h2
      · injection h1 with e1 e2
        subst e1; subst e2
        simp [dictGet]
      · by_cases hk : k' = k
        · exact absurd (hk ▸ List.mem_map_of_mem Prod.fst h2) hd'.1
        · simp only [dictGet, if_neg hk]
          exact ih hd'.2 h2

/-- Sample classes for concrete witnesses: an input-decorated class, an
output-decorated class, an undecorated class, and a fresh class about to be
decorated.  Ids are distinct, matching distinct Python class objects. -/
def clsIn : PyClass :=
  { id := 0, input_marker := true, output_marker := false, is_dict_subclass := false,
    has_own_eq := true, has_own_init := false, translate_property := none,
    synth_eq := true, synth_init := false }

def clsOut : PyClass :=
  { id := 1, input_marker := false, output_marker := true, is_dict_subclass := false,
    has_own_eq := true, has_own_init := true, translate_property := none,
    synth_eq := true, synth_init := true }

def clsPlain : PyClass :=
  { id := 2, input_marker := false, output_marker := false, is_dict_subclass := false,
    has_own_eq := false, has_own_init := false, translate_property := none,
    synth_eq := false, synth_init := false }

def clsFresh : PyClass :=
  { id := 3, input_marker := false, output_marker := false, is_dict_subclass := false,
    has_own_eq := false, has_own_init := false, translate_property := none,
    synth_eq := false, synth_init := false }

/-- C1: for an instance of a class decorated as input-kind and a non-empty wire
name `n`, `set` succeeds (lazily creating the Value Store if absent and writing
`n ↦ v` over any prior value), and a subsequent `get` of `n` returns the written
value `v`. -/
theorem set_then_get_returns_value {V : Type} (i : PyInstance V) (n : String) (v : V)
    (hin : is_input_type i.cls = true) (hn : n ≠ "") :
    set i n v = .ok { i with values := some (dictSet (i.values.getD []) n v) } ∧
    get { i with values := some (dictSet (i.values.getD []) n v) } n = .ok (some v) := by
  constructor
  · simp [set, hn, hin]
  · simp [get, hn, hin, dictGet_dictSet_self]

theorem set_then_get_returns_value_witness :
    set (⟨clsIn, none, []⟩ : PyInstance Int) "a" 37 =
      .ok ⟨clsIn, some [("a", 37)], []⟩ ∧
    get (⟨clsIn, some [("a", (37 : Int))], []⟩ : PyInstance Int) "a" = .ok (some 37) :=
  set_then_get_returns_value ⟨clsIn, none, []⟩ "a" 37 rfl (by decide)

/-- C5: for an instance of an input-kind class and a non-empty wire name that is
absent from the Value Store (including when the store was never created), `get`
returns Python `None` (the null-equivalent) and does not raise. -/
theorem get_unset_returns_none {V : Type} (i : PyInstance V) (n : String)
    (hin : is_input_type i.cls = true) (hn : n ≠ "")
    (hunset : ∀ d, i.values = some d → dictGet d n = none) :
    get i n = .ok none := by
  simp only [get, if_neg hn, hin, if_true]
  cases h : i.values with
  | none => simp
  | some d => simp [hunset d h]

theorem get_unset_returns_none_witness :
    get (⟨clsIn, none, []⟩ : PyInstance Int) "missing" = .ok none :=
  get_unset_returns_none ⟨clsIn, none, []⟩ "missing" rfl (by decide)
    (fun d hd => by cases hd)

/-- C7: for an instance of a class carrying neither kind marker and a non-empty
wire name, `get` raises `AssertionError` (the `UsageError` of the spec); and for
an instance whose class is not input-kind, `set` raises `AssertionError`.  State
passing is explicit, so an erroring `set` yields no updated instance: the
instance is unchanged. -/
theorem undecorated_get_set_raise {V : Type} (i : PyInstance V) (n : String) (v : V)
    (hn : n ≠ "") :
    (is_input_type i.cls = false → is_output_type i.cls = false →
      get i n = .error .assertionError) ∧
    (is_input_type i.cls = false → set i n v = .error .assertionError) := by
  constructor
  · intro h1 h2
    simp [get, hn, h1, h2]
  · intro h1
    simp [set, hn, h1]

theorem undecorated_get_set_raise_witness :
    get (⟨clsPlain, none, []⟩ : PyInstance Int) "a" = .error .assertionError ∧
    set (⟨clsPlain, none, []⟩ : PyInstance Int) "a" 5 = .error .assertionError :=
  ⟨(undecorated_get_set_raise ⟨clsPlain, none, []⟩ "a" 5 (by decide)).1 rfl rfl,
   (undecorated_get_set_raise ⟨clsPlain, none, []⟩ "a" 5 (by decide)).2 rfl⟩

/-! Field-preservation facts about `_add_eq` and the decorators. -/

@[simp] theorem _add_eq_input_marker (c : PyClass) :
    (_add_eq c).input_marker = c.input_marker := by
  unfold _add_eq; split <;> rfl

@[simp] theorem _add_eq_output_marker (c : PyClass) :
    (_add_eq c).output_marker = c.output_marker := by
  unfold _add_eq; split <;> rfl

@[simp] theorem _add_eq_is_dict_subclass (c : PyClass) :
    (_add_eq c).is_dict_subclass = c.is_dict_subclass := by
  unfold _add_eq; split <;> rfl

@[simp] theorem _add_eq_translate_property (c : PyClass) :
    (_add_eq c).translate_property = c.translate_property := by
  unfold _add_eq; split <;> rfl

@[simp] theorem _add_eq_synth_init (c : PyClass) :
    (_add_eq c).synth_init = c.synth_init := by
  unfold _add_eq; split <;> rfl

theorem input_type_ok_marker {c c' : PyClass} (h : input_type c = .ok c') :
    c'.input_marker = true := by
  unfold input_type at h
  by_cases hm : c.input_marker || c.output_marker
  · simp [hm] at h
  · simp only [hm, Bool.false_eq_true, if_false, Except.ok.injEq] at h
    subst h
    simp

theorem output_type_ok_marker {c c' : PyClass} (h : output_type c = .ok c') :
    c'.output_marker = true := by
  unfold output_type at h
  by_cases hm : c.input_marker || c.output_marker
  · simp [hm] at h
  · simp only [hm, Bool.false_eq_true, if_false, Except.ok.injEq] at h
    subst h
    split <;> simp

/-- C4: applying either decorator to a class that already carries either kind
marker raises `AssertionError` (the `AlreadyDecorated` of the spec); in
particular, after any successful first decoration of either kind, every second
application of either decorator — including repeating the same one — raises. -/
theorem decorate_twice_raises (c : PyClass) :
    ((c.input_marker = true ∨ c.output_marker = true) →
      input_type c = .error .assertionError ∧ output_type c = .error .assertionError) ∧
    (∀ c', (input_type c = .ok c' ∨ output_type c = .ok c') →
      input_type c' = .error .assertionError ∧ output_type c' = .error .assertionError) := by
  have decorated_raises : ∀ c2 : PyClass, (c2.input_marker || c2.output_marker) = true →
      input_type c2 = .error .assertionError ∧ output_type c2 = .error .assertionError := by
    intro c2 h2
    constructor
    · simp [input_type, h2]
    · simp [output_type, h2]
  constructor
  · intro h
    refine decorated_raises c ?_
    rcases h with h | h <;> simp [h]
  · intro c' h
    refine decorated_raises c' ?_
    rcases h with h | h
    · simp [input_type_ok_marker h]
    · simp [output_type_ok_marker h]

theorem decorate_twice_raises_witness :
    input_type (_add_eq { clsFresh with input_marker := true }) = .error .assertionError ∧
    output_type (_add_eq { clsFresh with input_marker := true }) = .error .assertionError :=
  (decorate_twice_raises clsFresh).2 _ (Or.inl rfl)

/-! The synthesized structural equality. -/

/-- The spec-side reading of "the Value Stores compare equal as mappings":
both absent, or both present and agreeing at every key. -/
def valuesEqAsMappings {V : Type} : Option (PyDict V) → Option (PyDict V) → Prop
  | none, none => True
  | some d1, some d2 => ∀ k, dictGet d1 k = dictGet d2 k
  | _, _ => False

/-- An instance whose Value Store, if present, is a well-formed Python dict. -/
def StoreNodup {V : Type} (i : PyInstance V) : Prop :=
  ∀ d, i.values = some d → NodupKeys d

theorem dictBEq_iff {V : Type} [DecidableEq V] {d1 d2 : PyDict V}
    (h1 : NodupKeys d1) (h2 : NodupKeys d2) :
    dictBEq d1 d2 = true ↔ ∀ k, dictGet d1 k = dictGet d2 k := by
  unfold dictBEq
  rw [Bool.and_eq_true, List.all_eq_true, List.all_eq_true]
  simp only [decide_eq_true_eq]
  constructor
  · rintro ⟨hl, hr⟩ k
    cases hg : dictGet d1 k with
    | some v => rw [hl (k, v) (dictGet_mem hg)]
    | none =>
        cases hg2 : dictGet d2 k with
        | none => rfl
        | some w =>
            have hcontra := hr (k, w) (dictGet_mem hg2)
            rw [hg] at hcontra
            exact absurd hcontra (by simp)
  · intro hall
    constructor
    · intro p hp
      rw [← hall p.1]
      exact mem_dictGet h1 hp
    · intro p hp
      rw [hall p.1]
      exact mem_dictGet h2 hp

/-- C6: the synthesized `__eq__` makes two instances equal exactly when they are
of the same runtime class (same class identity) and their Value Stores compare
equal as mappings — so instances of different classes with identical store
contents compare unequal, and two instances of one class built from equal
mappings (in any insertion order) compare equal. -/
theorem synth_eq_fn_iff {V : Type} [DecidableEq V] (a b : PyInstance V)
    (ha : StoreNodup a) (hb : StoreNodup b) :
    synth_eq_fn a b = true ↔
      (b.cls.id = a.cls.id ∧ valuesEqAsMappings b.values a.values) := by
  unfold synth_eq_fn
  rw [Bool.and_eq_true, decide_eq_true_eq]
  refine and_congr_right fun _ => ?_
  cases hbv : b.values with
  | none =>
      cases hav : a.values with
      | none => simp [valuesEqAsMappings]
      | some d2 => simp [valuesEqAsMappings]
  | some d1 =>
      cases hav : a.values with
      | none => simp [valuesEqAsMappings]
      | some d2 =>
          simp only [valuesEqAsMappings]
          exact dictBEq_iff (hb d1 hbv) (ha d2 hav)

theorem synth_eq_fn_iff_witness :
    (synth_eq_fn (⟨clsOut, some [("a", (1 : Int)), ("b", 2)], []⟩ : PyInstance Int)
        ⟨clsOut, some [("b", 2), ("a", 1)], []⟩ = true ↔
      (clsOut.id = clsOut.id ∧
        valuesEqAsMappings (some [("b", (2 : Int)), ("a", 1)])
          (some [("a", (1 : Int)), ("b", 2)]))) :=
  synth_eq_fn_iff ⟨clsOut, some [("a", 1), ("b", 2)], []⟩ ⟨clsOut, some [("b", 2), ("a", 1)], []⟩
    (fun d hd => by injection hd with h; rw [← h]; unfold NodupKeys; decide)
    (fun d hd => by injection hd with h; rw [← h]; unfold NodupKeys; decide)

theorem output_type_ok_shape {c c' : PyClass} (h : output_type c = .ok c')
    (hd : c.is_dict_subclass = false) (hi : c.has_own_init = false) :
    c'.input_marker = false ∧ c'.output_marker = true ∧ c'.is_dict_subclass = false ∧
    c'.translate_property = c.translate_property ∧ c'.synth_init = true := by
  unfold output_type at h
  by_cases hm : c.input_marker || c.output_marker
  · simp [hm] at h
  · simp only [hm, Bool.false_eq_true, if_false, hd, hi, Bool.not_false, Bool.and_self,
      if_true, Except.ok.injEq] at h
    subst h
    have hin : c.input_marker = false := by
      rcases Bool.or_eq_false_iff.mp (Bool.not_eq_true _ ▸ hm) with ⟨h1, _⟩
      exact h1
    simp [hin]

/-- C8: after `@output_type` is applied to a class that is not a `dict` subclass
and has no own `__init__`, the synthesized `__init__` is attached; it raises
`TypeError` when its single argument is not a dict, and given a dict it stores
that dict wholesale as the instance's `_values`, so a subsequent `get` of any
stored wire name returns the dict's value for it. -/
theorem output_init_behavior {V : Type} (c c' : PyClass)
    (hok : output_type c = .ok c')
    (hd : c.is_dict_subclass = false) (hi : c.has_own_init = false) :
    c'.synth_init = true ∧
    (∀ v : V, synth_output_init c' (.nonMapping v) = .error .typeError) ∧
    (∀ (d : PyDict V) (n : String) (w : V),
      n ≠ "" → c.translate_property = none → dictGet d n = some w →
      synth_output_init c' (.mapping d) = .ok ⟨c', some d, []⟩ ∧
        get (⟨c', some d, []⟩ : PyInstance V) n = .ok (some w)) := by
  obtain ⟨h1, h2, h3, h4, h5⟩ := output_type_ok_shape hok hd hi
  refine ⟨h5, fun v => rfl, fun d n w hn ht hw => ⟨rfl, ?_⟩⟩
  rw [ht] at h4
  simp [get, hn, is_input_type, is_output_type, h1, h2, h3, h4, hw]

/-- The class that results from applying `@output_type` to `clsFresh`. -/
def clsFreshOut : PyClass :=
  { id := 3, input_marker := false, output_marker := true, is_dict_subclass := false,
    has_own_eq := true, has_own_init := true, translate_property := none,
    synth_eq := true, synth_init := true }

theorem output_init_behavior_witness :
    synth_output_init clsFreshOut (.nonMapping (7 : Int)) = .error .typeError ∧
    synth_output_init clsFreshOut (.mapping [("a", (7 : Int))]) =
      .ok ⟨clsFreshOut, some [("a", 7)], []⟩ ∧
    get (⟨clsFreshOut, some [("a", (7 : Int))], []⟩ : PyInstance Int) "a" = .ok (some 7) :=
  ⟨(output_init_behavior (V := Int) clsFresh clsFreshOut rfl rfl rfl).2.1 7,
   (output_init_behavior (V := Int) clsFresh clsFreshOut rfl rfl rfl).2.2
     [("a", 7)] "a" 7 (by decide) rfl rfl⟩

/-! The type unwrapping claims. -/

theorem unwrap_two_arg_optional (t : TypeExpr) :
    unwrap_optional_type (.union [t, .noneType]) = .ok t := by
  have hopt : _is_optional_type (.union [t, .noneType]) = true := by
    simp [_is_optional_type, _any_optional]
  simp [unwrap_optional_type, hopt, get_args, is_none_type]

/-- C3: `unwrap_optional_type` on a two-argument union `{T, NoneType}` returns
`T`; on a type that is not an optional-containing union it returns the type
unchanged; and on a union of three or more alternatives it returns the union
unchanged, even when an alternative is `NoneType`. -/
theorem unwrap_optional_type_spec :
    (∀ t, unwrap_optional_type (.union [t, .noneType]) = .ok t) ∧
    (∀ t, _is_union_type t = false ∨ _is_optional_type t = false →
      unwrap_optional_type t = .ok t) ∧
    (∀ args, 3 ≤ args.length → unwrap_optional_type (.union args) = .ok (.union args)) := by
  refine ⟨unwrap_two_arg_optional, ?_, ?_⟩
  · intro t h
    cases t with
    | noneType => simp [unwrap_optional_type, _is_optional_type, get_args]
    | output arg => simp [unwrap_optional_type, _is_optional_type]
    | base s => simp [unwrap_optional_type, _is_optional_type]
    | union args =>
        rcases h with h | h
        · simp [_is_union_type] at h
        · simp [unwrap_optional_type, h]
  · intro args hlen
    rcases args with _ | ⟨a, _ | ⟨b, _ | ⟨c, rest⟩⟩⟩ <;> simp at hlen
    cases hopt : _is_optional_type (.union (a :: b :: c :: rest)) <;>
      simp [unwrap_optional_type, hopt, get_args]

theorem unwrap_optional_type_spec_witness :
    unwrap_optional_type (.union [.base "str", .noneType]) = .ok (.base "str") ∧
    unwrap_optional_type (.base "str") = .ok (.base "str") ∧
    unwrap_optional_type (.union [.base "str", .base "int", .noneType]) =
      .ok (.union [.base "str", .base "int", .noneType]) :=
  ⟨unwrap_optional_type_spec.1 (.base "str"),
   unwrap_optional_type_spec.2.1 (.base "str") (Or.inl rfl),
   unwrap_optional_type_spec.2.2 [.base "str", .base "int", .noneType] (by decide)⟩

/-- C2: the full unwrap strips exactly one `Output` layer and then one optional
layer, with no recursive re-entry: `Output[Optional[str]]` unwraps to `str`,
while `Output[Output[T]]` keeps the inner `Output` layer and a nested
optional-shaped union keeps its inner optional shape. -/
theorem unwrap_type_strips_once :
    _unwrap_type (.output (.union [.base "str", .noneType])) = .ok (.base "str") ∧
    (∀ t, _unwrap_type (.output (.output t)) = .ok (.output t)) ∧
    (∀ t, _unwrap_type (.union [.union [t, .noneType], .noneType]) =
      .ok (.union [t, .noneType])) := by
  refine ⟨?_, ?_, ?_⟩
  · show unwrap_optional_type (.union [.base "str", .noneType]) = .ok (.base "str")
    exact unwrap_two_arg_optional (.base "str")
  · intro t
    show unwrap_optional_type (.output t) = .ok (.output t)
    simp [unwrap_optional_type, _is_optional_type]
  · intro t
    show unwrap_optional_type (.union [.union [t, .noneType], .noneType]) =
      .ok (.union [t, .noneType])
    exact unwrap_two_arg_optional (.union [t, .noneType])

theorem unwrap_type_strips_once_witness :
    _unwrap_type (.output (.output (.base "str"))) = .ok (.output (.base "str")) ∧
    _unwrap_type (.union [.union [.base "str", .noneType], .noneType]) =
      .ok (.union [.base "str", .noneType]) :=
  ⟨unwrap_type_strips_once.2.1 (.base "str"),
   unwrap_type_strips_once.2.2 (.base "str")⟩

/-- C10: `unwrap_optional_type` only unwraps when the `NoneType` alternative is
the second of the two union arguments; on `Union[NoneType, T]` with a
non-`NoneType` payload `T`, the internal assertion `args[1] is type(None)`
fails (an `AssertionError`) instead of returning the payload. -/
theorem unwrap_optional_asserts_second_none (t : TypeExpr)
    (h : is_none_type t = false) :
    unwrap_optional_type (.union [.noneType, t]) = .error .assertionError := by
  have hopt : _is_optional_type (.union [.noneType, t]) = true := by
    simp [_is_optional_type, _any_optional]
  simp [unwrap_optional_type, hopt, get_args, h]

theorem unwrap_optional_asserts_second_none_witness :
    unwrap_optional_type (.union [.noneType, .base "int"]) = .error .assertionError :=
  unwrap_optional_asserts_second_none (.base "int") rfl

/-! The fresh-copy behavior of `input_type_to_dict`, stated over the heap
model.  `copied_store` is the dict contents that `dict(...)` copies; the call
allocates them at the fresh address `ret_addr`, producing heap `post_heap`. -/

/-- The contents `input_type_to_dict` copies: the store's contents, or the empty
dict when the `_values` attribute is absent. -/
def copied_store {V : Type} (h : Heap V) (i : HInstance) : PyDict V :=
  match i.values with | some a => h.mem a | none => []

/-- The heap after `input_type_to_dict` has allocated the copy. -/
def post_heap {V : Type} (h : Heap V) (i : HInstance) : Heap V :=
  (halloc h (copied_store h i)).1

/-- The address of the freshly allocated copy `input_type_to_dict` returns. -/
def ret_addr {V : Type} (h : Heap V) (i : HInstance) : Nat :=
  (halloc h (copied_store h i)).2

/-- C9: on an input-kind instance (whose store address, when present, is a live
heap address), `input_type_to_dict` does not fail: it returns a fresh dict whose
contents equal the Value Store's (the empty dict when the store was never
created); in-place mutation of the returned dict leaves the instance's store
unchanged, and a later `set` on the instance leaves the returned dict
unchanged. -/
theorem input_type_to_dict_fresh_copy {V : Type} (h : Heap V) (i : HInstance)
    (hin : is_input_type i.cls = true)
    (hwf : ∀ a, i.values = some a → a < h.next) :
    input_type_to_dict h i = .ok (post_heap h i, ret_addr h i) ∧
    (post_heap h i).mem (ret_addr h i) = copied_store h i ∧
    (∀ a, i.values = some a → ∀ (k : String) (v : V),
      (hdictAssign (post_heap h i) (ret_addr h i) k v).mem a = h.mem a) ∧
    (∀ (n : String) (v : V) (h2 : Heap V) (i2 : HInstance),
      hset (post_heap h i) i n v = .ok (h2, i2) →
      h2.mem (ret_addr h i) = (post_heap h i).mem (ret_addr h i)) := by
  have hret : ret_addr h i = h.next := rfl
  refine ⟨?_, ?_, ?_, ?_⟩
  · simp [input_type_to_dict, hin, post_heap, ret_addr, copied_store, halloc]
  · simp [post_heap, ret_addr, copied_store, halloc]
  · intro a ha k v
    have hlt : a < h.next := hwf a ha
    have hne : a ≠ h.next := Nat.ne_of_lt hlt
    simp [hdictAssign, hwrite, post_heap, ret_addr, halloc, hne]
  · intro n v h2 i2 hs
    by_cases hn : n = ""
    · simp [hset, hn] at hs
    · cases hv : i.values with
      | some a =>
          have hlt : a < h.next := hwf a hv
          have hne : h.next ≠ a := (Nat.ne_of_lt hlt).symm
          simp only [hset, if_neg hn, hin, Bool.not_true, Bool.false_eq_true, if_false, hv,
            Except.ok.injEq, Prod.mk.injEq] at hs
          obtain ⟨hh2, _⟩ := hs
          subst hh2
          simp [hdictAssign, hwrite, hret, hne]
      | none =>
          have hne1 : h.next ≠ (post_heap h i).next := by
            simp [post_heap, halloc]
          simp only [hset, if_neg hn, hin, Bool.not_true, Bool.false_eq_true, if_false, hv,
            halloc, Except.ok.injEq, Prod.mk.injEq] at hs
          obtain ⟨hh2, _⟩ := hs
          subst hh2
          have hnext : (post_heap h i).next = h.next + 1 := by
            simp [post_heap, halloc]
          simp [hdictAssign, hwrite, hret, hnext, Nat.ne_of_lt (Nat.lt_succ_self h.next)]

theorem input_type_to_dict_fresh_copy_witness :
    input_type_to_dict (⟨fun _ => [], 0⟩ : Heap Int) (⟨clsIn, none⟩ : HInstance) =
      .ok (post_heap ⟨fun _ => [], 0⟩ ⟨clsIn, none⟩,
           ret_addr (V := Int) ⟨fun _ => [], 0⟩ ⟨clsIn, none⟩) ∧
    (post_heap (⟨fun _ => [], 0⟩ : Heap Int) ⟨clsIn, none⟩).mem
        (ret_addr (V := Int) ⟨fun _ => [], 0⟩ ⟨clsIn, none⟩) =
      copied_store (⟨fun _ => [], 0⟩ : Heap Int) ⟨clsIn, none⟩ :=
  ⟨(input_type_to_dict_fresh_copy ⟨fun _ => [], 0⟩ ⟨clsIn, none⟩ rfl
      (fun _ ha => nomatch ha)).1,
   (input_type_to_dict_fresh_copy ⟨fun _ => [], 0⟩ ⟨clsIn, none⟩ rfl
      (fun _ ha => nomatch ha)).2.1⟩

end PulumiTypes
